import Mathlib

/-!
# Verification of the catalog server (`src/app.py`)

Shallow embedding of the Flask catalog API: the user and product data
model, the request handlers (`register`, `create_product`,
`update_product`, `delete_product`, `get_product`, `get_products`), the
role table `ROLES`, and the authorization rule guarding product mutation.
Stateful code becomes explicit state passing over `AppState`; fallible
paths are explicit result constructors carrying the HTTP status the
Flask layer would produce.  Timestamps are a logical clock (`Nat`)
supplied to each handler, standing for `db.func.now()`.
-/

namespace Catalog

/-- A stored user row (`class User`, app.py:91-103).  `role` is a
non-null column, so stored rows always carry a concrete role string;
`password_hash` stores the output of the hash primitive, never the
plaintext. -/
structure User where
  id : Nat
  username : String
  email : String
  password_hash : String
  role : String
  deriving Repr, DecidableEq

/-- A stored product row (`class Products`, app.py:105-114).  `price` is
modelled as an integer-valued number; `created_at`/`updated_at` are
logical-clock values assigned by the server (`server_default=now`,
`onupdate=now`). -/
structure Product where
  id : Nat
  name : String
  description : String
  price : Int
  product_image_url : String
  created_by : Nat
  created_at : Nat
  updated_at : Nat
  deriving Repr, DecidableEq

/-- The durable state: the `users` and `products` tables plus the
autoincrement counters for their primary keys. -/
structure AppState where
  users : List User
  products : List Product
  nextUserId : Nat
  nextProductId : Nat
  deriving Repr, DecidableEq

/-- The role table `ROLES` (app.py:86-89) read through `dict.get`:
`ROLES.get(k)` is the value for a known key and `None` otherwise. -/
def ROLES.get (k : String) : Option String :=
  if k = "admin" then some "admin"
  else if k = "user" then some "user"
  else none

/-- Model of `werkzeug.security.generate_password_hash`: an abstract
one-way hash; only the fact that the stored value is the hash of the
plaintext matters to the claims. -/
def generate_password_hash (pw : String) : String :=
  "pbkdf2-sha256$" ++ pw

/-- `User.query.filter_by(username=...).first()`. -/
def findUserByUsername (s : AppState) (uname : String) : Option User :=
  s.users.find? (fun u => u.username = uname)

/-- `User.query.filter_by(email=...).first()`. -/
def findUserByEmail (s : AppState) (email : String) : Option User :=
  s.users.find? (fun u => u.email = email)

/-- `Products.query.get(pid)`: primary-key lookup. -/
def findProduct (s : AppState) (pid : Nat) : Option Product :=
  s.products.find? (fun p => p.id = pid)

/-! ## Registration (`register`, app.py:193-218) -/

/-- The JSON body of a registration request; `none` means the key is
absent from the payload. -/
structure RegisterRequest where
  username : Option String
  email : Option String
  password : Option String
  role : Option String
  deriving Repr, DecidableEq

/-- `field not in data or not data[field]` (app.py:199): a required
field fails validation when absent or falsy (empty string). -/
def fieldMissing : Option String → Bool
  | none => true
  | some v => v = ""

/-- Outcome of `register`, tagged with the HTTP status Flask returns. -/
inductive RegisterResult where
  | missingField (f : String)
  | usernameExists
  | emailExists
  | created (uid : Nat)
  deriving Repr, DecidableEq

def RegisterResult.status : RegisterResult → Nat
  | .missingField _ => 400
  | .usernameExists => 400
  | .emailExists => 400
  | .created _ => 201

/-- `register` (app.py:193-218): validate required fields in order,
reject duplicate username then duplicate email, then insert.  The
`role` attribute is `ROLES.get(data.get('role', 'user'))` (app.py:211),
which is `None` for a role outside the table; at flush SQLAlchemy omits
a `None`-valued column that has a Python-side default from the INSERT,
so the column default `ROLES['user']` (app.py:97) fires and the stored
role is the resolved role when known and `"user"` otherwise — hence the
`Option.getD "user"` on the `ROLES.get` result. -/
def register (s : AppState) (req : RegisterRequest) :
    RegisterResult × AppState :=
  if fieldMissing req.username then (.missingField "username", s)
  else if fieldMissing req.email then (.missingField "email", s)
  else if fieldMissing req.password then (.missingField "password", s)
  else
    let uname := req.username.getD ""
    let email := req.email.getD ""
    if (findUserByUsername s uname).isSome then (.usernameExists, s)
    else if (findUserByEmail s email).isSome then (.emailExists, s)
    else
      let r := (ROLES.get (req.role.getD "user")).getD "user"
      let uid := s.nextUserId
      let u : User :=
        { id := uid, username := uname, email := email,
          password_hash := generate_password_hash (req.password.getD ""),
          role := r }
      (.created uid,
       { s with users := s.users ++ [u], nextUserId := uid + 1 })

/-! ## Product creation (`create_product`, app.py:423-439) -/

/-- The JSON body of a create request; `none` means the key is absent. -/
structure CreateRequest where
  name : Option String
  description : Option String
  price : Option Int
  product_image_url : Option String
  deriving Repr, DecidableEq

/-- Outcome of `create_product`.  `internalError` covers the unhandled
exceptions of the handler body: `KeyError` on `data['name']` or
`data['price']` when the key is absent, and `AttributeError` on
`user.id` when the token identity matches no stored user; Flask maps
both to a 500 response. -/
inductive CreateResult where
  | internalError
  | created (pid : Nat)
  deriving Repr, DecidableEq

def CreateResult.status : CreateResult → Nat
  | .internalError => 500
  | .created _ => 201

/-- `create_product` (app.py:423-439): the constructor arguments are
evaluated in source order, so a missing `name` raises first, then a
missing `price`, then the `user.id` dereference; `description` and
`product_image_url` default to `""` via `data.get`. -/
def create_product (s : AppState) (username : String)
    (data : CreateRequest) (now : Nat) : CreateResult × AppState :=
  match data.name with
  | none => (.internalError, s)
  | some name =>
    match data.price with
    | none => (.internalError, s)
    | some price =>
      match findUserByUsername s username with
      | none => (.internalError, s)
      | some user =>
        let pid := s.nextProductId
        let p : Product :=
          { id := pid, name := name,
            description := data.description.getD "",
            price := price,
            product_image_url := data.product_image_url.getD "",
            created_by := user.id, created_at := now, updated_at := now }
        (.created pid,
         { s with products := s.products ++ [p], nextProductId := pid + 1 })

/-! ## Product update (`update_product`, app.py:485-501) -/

/-- The JSON body of an update request: every field optional, applied
via `data.get(key, current_value)`. -/
structure UpdateRequest where
  name : Option String
  description : Option String
  price : Option Int
  product_image_url : Option String
  deriving Repr, DecidableEq

/-- Outcome of `update_product` / `delete_product`.  `notFound` is
`get_or_404` aborting; `internalError` is the `user.id` dereference on a
missing user (`AttributeError`, reached only after `get_or_404`
succeeded); `forbidden` is the 403 branch. -/
inductive MutateResult where
  | notFound
  | internalError
  | forbidden
  | ok
  deriving Repr, DecidableEq

def MutateResult.status : MutateResult → Nat
  | .notFound => 404
  | .internalError => 500
  | .forbidden => 403
  | .ok => 200

/-- The unit-of-work check at flush: no attribute of the row has a net
change, i.e. every value assigned by `data.get(field, current)`
(app.py:495-498) equals the value already stored.  In that case
SQLAlchemy emits no UPDATE statement for the row, so the `onupdate`
hook never fires. -/
def noNetChange (data : UpdateRequest) (p : Product) : Prop :=
  data.name.getD p.name = p.name
  ∧ data.description.getD p.description = p.description
  ∧ data.price.getD p.price = p.price
  ∧ data.product_image_url.getD p.product_image_url = p.product_image_url

instance (data : UpdateRequest) (p : Product) :
    Decidable (noNetChange data p) := by
  unfold noNetChange
  infer_instance

/-- `update_product` (app.py:485-501): `get_or_404` the product, then
dereference the actor (looked up by token identity at app.py:488, first
dereferenced at app.py:492), then the authorization guard
`product.created_by != user.id and user.role != ROLES['admin']`; on
success each column is assigned `data.get(field, current)`.  The commit
emits an UPDATE — refreshing `updated_at` via `onupdate=db.func.now()`
(app.py:114) — only when some assigned value differs from the stored
one; when no attribute has a net change the flush skips the row, the
handler still returns 200, and the row (its `updated_at` included) is
unchanged. -/
def update_product (s : AppState) (username : String) (pid : Nat)
    (data : UpdateRequest) (now : Nat) : MutateResult × AppState :=
  match findProduct s pid with
  | none => (.notFound, s)
  | some product =>
    match findUserByUsername s username with
    | none => (.internalError, s)
    | some user =>
      if product.created_by ≠ user.id ∧ user.role ≠ "admin" then
        (.forbidden, s)
      else if noNetChange data product then
        (.ok, s)
      else
        let product' : Product :=
          { product with
            name := data.name.getD product.name,
            description := data.description.getD product.description,
            price := data.price.getD product.price,
            product_image_url :=
              data.product_image_url.getD product.product_image_url,
            updated_at := now }
        (.ok,
         { s with products :=
            s.products.map (fun p => if p.id = pid then product' else p) })

/-- `delete_product` (app.py:533-544): same lookup and guard as update;
on success the row is deleted. -/
def delete_product (s : AppState) (username : String) (pid : Nat) :
    MutateResult × AppState :=
  match findProduct s pid with
  | none => (.notFound, s)
  | some product =>
    match findUserByUsername s username with
    | none => (.internalError, s)
    | some user =>
      if product.created_by ≠ user.id ∧ user.role ≠ "admin" then
        (.forbidden, s)
      else
        (.ok,
         { s with products := s.products.filter (fun p => p.id ≠ pid) })

/-! ## Reads (`get_product` app.py:367-378, `get_products` app.py:318-332) -/

inductive GetResult where
  | notFound
  | ok (p : Product)
  deriving Repr, DecidableEq

def GetResult.status : GetResult → Nat
  | .notFound => 404
  | .ok _ => 200

/-- `get_product` (app.py:367-378): `get_or_404` then serialize. -/
def get_product (s : AppState) (pid : Nat) : GetResult :=
  match findProduct s pid with
  | none => .notFound
  | some p => .ok p

/-- Body of a `get_products` response: the serialized product list on
success, or the `{"error": str(e)}` object of the `except` branch
(app.py:331-332). -/
inductive ListBody where
  | items (ps : List Product)
  | errorBody (detail : String)
  deriving Repr, DecidableEq

/-- `get_products` (app.py:318-332).  `dbFailure` models whether the
query raises and with what exception text: `some e` stands for an
exception whose `str` is `e`, and the handler returns
`500 {"error": str(e)}`; otherwise 200 with the list. -/
def get_products (dbFailure : Option String) (s : AppState) :
    Nat × ListBody :=
  match dbFailure with
  | some e => (500, .errorBody e)
  | none => (200, .items s.products)

/-! ## Token verification on optional-auth endpoints

The two GET endpoints are decorated `@jwt_required(optional=True)`
(app.py:285, app.py:335).  That decorator comes from the
`flask_jwt_extended` collaborator; its documented semantics: a request
with no token proceeds with an anonymous identity, but a token that is
present and expired is rejected with 401, and one that is present and
otherwise unverifiable (bad signature, malformed) is rejected with 422,
before the handler body runs. -/

/-- The authentication material a request carries. -/
inductive AuthHeader where
  | missing
  | valid (identity : String)
  | invalidTok
  | expiredTok
  deriving Repr, DecidableEq

/-- Model of `flask_jwt_extended.jwt_required(optional=True)`: `Except`
carries the rejection status; `ok` carries the identity (`none` for an
anonymous request). -/
def verify_jwt_optional : AuthHeader → Except Nat (Option String)
  | .missing => .ok none
  | .valid who => .ok (some who)
  | .expiredTok => .error 401
  | .invalidTok => .error 422

/-- Status of `GET /api/products/{id}` including the decorator. -/
def get_product_endpoint_status (auth : AuthHeader) (s : AppState)
    (pid : Nat) : Nat :=
  match verify_jwt_optional auth with
  | .error c => c
  | .ok _ => (get_product s pid).status

/-- Status of `GET /api/products` including the decorator. -/
def get_products_endpoint_status (auth : AuthHeader)
    (dbFailure : Option String) (s : AppState) : Nat :=
  match verify_jwt_optional auth with
  | .error c => c
  | .ok _ => (get_products dbFailure s).1

/-! ## Reachable states

The database is created empty and seeded with the bootstrap admin
(app.py:129-141); afterwards every change to durable state goes through
one of the four mutating handlers. -/

/-- The bootstrap state (app.py:133-141): the seeded admin row. -/
def initState : AppState :=
  { users := [{ id := 1, username := "admin", email := "admin@example.com",
                password_hash := generate_password_hash "admin123",
                role := "admin" }],
    products := [], nextUserId := 2, nextProductId := 1 }

/-- One request-handler invocation, observed on the durable state. -/
inductive Step : AppState → AppState → Prop
  | register (s : AppState) (req : RegisterRequest) :
      Step s (register s req).2
  | create (s : AppState) (username : String) (data : CreateRequest)
      (now : Nat) : Step s (create_product s username data now).2
  | update (s : AppState) (username : String) (pid : Nat)
      (data : UpdateRequest) (now : Nat) :
      Step s (update_product s username pid data now).2
  | delete (s : AppState) (username : String) (pid : Nat) :
      Step s (delete_product s username pid).2

/-- States reachable from the bootstrap state by handler invocations. -/
inductive Reachable : AppState → Prop
  | init : Reachable initState
  | step {s s' : AppState} : Reachable s → Step s s' → Reachable s'

/-- Username and email uniqueness across the user table. -/
def UniqueCreds (s : AppState) : Prop :=
  s.users.Pairwise (fun a b => a.username ≠ b.username ∧ a.email ≠ b.email)

end Catalog

namespace Catalog

/-! ## Helper lemmas -/

/-- A registration that passes validation and both duplicate checks
appends exactly one row and advances the counter; the stored role is
the `ROLES.get` resolution with the column default `"user"` as
fallback. -/
theorem register_created_eq
    (s : AppState) (req : RegisterRequest)
    (hu : fieldMissing req.username = false)
    (he : fieldMissing req.email = false)
    (hp : fieldMissing req.password = false)
    (hdu : findUserByUsername s (req.username.getD "") = none)
    (hde : findUserByEmail s (req.email.getD "") = none) :
    register s req =
      (.created s.nextUserId,
       { s with
          users := s.users ++
            [{ id := s.nextUserId, username := req.username.getD "",
               email := req.email.getD "",
               password_hash :=
                 generate_password_hash (req.password.getD ""),
               role := (ROLES.get (req.role.getD "user")).getD "user" }],
          nextUserId := s.nextUserId + 1 }) := by
  simp [register, hu, he, hp, hdu, hde]

/-- **C2.** A registration omitting `role` creates a user with role
`"user"`; a registration supplying role `"admin"` creates a user with
role `"admin"`: the public endpoint honors the caller-supplied role
(`ROLES.get(data.get('role', 'user'))`, app.py:211). -/
theorem register_role_honored
    (s : AppState) (req : RegisterRequest)
    (hu : fieldMissing req.username = false)
    (he : fieldMissing req.email = false)
    (hp : fieldMissing req.password = false)
    (hdu : findUserByUsername s (req.username.getD "") = none)
    (hde : findUserByEmail s (req.email.getD "") = none) :
    (req.role = none →
      ∃ u : User, register s req =
          (.created u.id,
           { s with users := s.users ++ [u], nextUserId := u.id + 1 })
        ∧ u.role = "user")
    ∧ (req.role = some "admin" →
      ∃ u : User, register s req =
          (.created u.id,
           { s with users := s.users ++ [u], nextUserId := u.id + 1 })
        ∧ u.role = "admin") := by
  constructor
  · intro hrole
    refine ⟨{ id := s.nextUserId, username := req.username.getD "",
              email := req.email.getD "",
              password_hash := generate_password_hash (req.password.getD ""),
              role := (ROLES.get (req.role.getD "user")).getD "user" },
            register_created_eq s req hu he hp hdu hde, ?_⟩
    simp [hrole, ROLES.get]
  · intro hrole
    refine ⟨{ id := s.nextUserId, username := req.username.getD "",
              email := req.email.getD "",
              password_hash := generate_password_hash (req.password.getD ""),
              role := (ROLES.get (req.role.getD "user")).getD "user" },
            register_created_eq s req hu he hp hdu hde, ?_⟩
    simp [hrole, ROLES.get]

/-- Witness for C2 at a concrete state and request. -/
theorem register_role_honored_witness :
    (∃ u : User,
      register initState ⟨some "alice", some "alice@x.com", some "pw", none⟩ =
        (.created u.id,
         { initState with users := initState.users ++ [u],
                          nextUserId := u.id + 1 })
      ∧ u.role = "user")
    ∧ (∃ u : User,
      register initState
          ⟨some "mallory", some "m@x.com", some "pw", some "admin"⟩ =
        (.created u.id,
         { initState with users := initState.users ++ [u],
                          nextUserId := u.id + 1 })
      ∧ u.role = "admin") := by
  exact ⟨(register_role_honored initState
            ⟨some "alice", some "alice@x.com", some "pw", none⟩
            (by decide) (by decide) (by decide) (by decide) (by decide)).1 rfl,
         (register_role_honored initState
            ⟨some "mallory", some "m@x.com", some "pw", some "admin"⟩
            (by decide) (by decide) (by decide) (by decide) (by decide)).2 rfl⟩

/-- **C10 counterexample.** The claim — a registration whose `role`
field is neither `"admin"` nor `"user"` does not produce a user whose
role is in {admin, user}, the non-null column failing the insert — is
false: registering carol with role `"superuser"` at the bootstrap state
succeeds (201) and creates a user whose role is `"user"`.  The `None`
that `ROLES.get` returns is omitted from the INSERT because the column
has a Python-side default, so the default `"user"` fires. -/
theorem register_unknown_role_claim_refuted :
    (register initState
        ⟨some "carol", some "c@x.com", some "pw", some "superuser"⟩).1 =
      .created 2
    ∧ (register initState
        ⟨some "carol", some "c@x.com", some "pw", some "superuser"⟩).1.status
        = 201
    ∧ ∃ u ∈ (register initState
        ⟨some "carol", some "c@x.com", some "pw", some "superuser"⟩).2.users,
        u.username = "carol" ∧ u.role = "user" := by
  decide

/-- **C10 (amended).** For every well-formed, non-colliding
registration whose `role` field is present but neither `"admin"` nor
`"user"`, `ROLES.get(role)` is `None`; SQLAlchemy omits the
`None`-valued column from the INSERT, the column default fires, and the
registration succeeds (201), creating a user with role `"user"` — the
same outcome as omitting the field. -/
theorem register_unknown_role_defaults_to_user
    (s : AppState) (req : RegisterRequest) (r : String)
    (hu : fieldMissing req.username = false)
    (he : fieldMissing req.email = false)
    (hp : fieldMissing req.password = false)
    (hdu : findUserByUsername s (req.username.getD "") = none)
    (hde : findUserByEmail s (req.email.getD "") = none)
    (hrol : req.role = some r) (hra : r ≠ "admin") (hrr : r ≠ "user") :
    ∃ u : User,
      register s req =
        (.created u.id,
         { s with users := s.users ++ [u], nextUserId := u.id + 1 })
      ∧ u.role = "user"
      ∧ (register s req).1.status = 201 := by
  refine ⟨{ id := s.nextUserId, username := req.username.getD "",
            email := req.email.getD "",
            password_hash := generate_password_hash (req.password.getD ""),
            role := (ROLES.get (req.role.getD "user")).getD "user" },
          register_created_eq s req hu he hp hdu hde, ?_, ?_⟩
  · simp [hrol, ROLES.get, hra, hrr]
  · rw [register_created_eq s req hu he hp hdu hde]
    rfl

/-- Witness for the amended C10: role `"superuser"` at the bootstrap
state yields a created user with role `"user"` and status 201. -/
theorem register_unknown_role_defaults_to_user_witness :
    ∃ u : User,
      register initState
          ⟨some "carol", some "c@x.com", some "pw", some "superuser"⟩ =
        (.created u.id,
         { initState with users := initState.users ++ [u],
                          nextUserId := u.id + 1 })
      ∧ u.role = "user"
      ∧ (register initState
          ⟨some "carol", some "c@x.com", some "pw", some "superuser"⟩).1.status
          = 201 := by
  exact register_unknown_role_defaults_to_user initState
    ⟨some "carol", some "c@x.com", some "pw", some "superuser"⟩ "superuser"
    (by decide) (by decide) (by decide) (by decide) (by decide) rfl
    (by decide) (by decide)

/-- **C4 counterexample.** The claim — a create request missing `name`
or `price` fails with a caller validation error (400) — is false: at
the bootstrap state, a request missing `price` produces status 500, the
unhandled `KeyError` of `data['price']` (app.py:431). -/
theorem create_missing_field_validation_refuted :
    ¬ (∀ (s : AppState) (username : String) (data : CreateRequest)
        (now : Nat),
        (data.name = none ∨ data.price = none) →
        (create_product s username data now).1.status = 400) := by
  intro h
  exact absurd
    (h initState "admin" ⟨some "Widget", none, none, none⟩ 0 (Or.inr rfl))
    (by decide)

/-- **C4 (amended).** A create request missing `name` or `price` fails
with an internal error (500, an unhandled `KeyError`), not with a
caller validation error, and no product is created. -/
theorem create_missing_field_internal_error
    (s : AppState) (username : String) (data : CreateRequest) (now : Nat)
    (h : data.name = none ∨ data.price = none) :
    (create_product s username data now).1 = .internalError
    ∧ (create_product s username data now).1.status = 500
    ∧ (create_product s username data now).2 = s := by
  rcases h with h | h
  · simp [create_product, h, CreateResult.status]
  · cases hn : data.name <;>
      simp [create_product, h, hn, CreateResult.status]

/-- Witness for the amended C4 at a concrete request. -/
theorem create_missing_field_internal_error_witness :
    (create_product initState "admin" ⟨some "Widget", none, none, none⟩ 0).1
      = .internalError
    ∧ (create_product initState "admin"
        ⟨some "Widget", none, none, none⟩ 0).1.status = 500
    ∧ (create_product initState "admin"
        ⟨some "Widget", none, none, none⟩ 0).2 = initState := by
  exact create_missing_field_internal_error initState "admin"
    ⟨some "Widget", none, none, none⟩ 0 (Or.inr rfl)

end Catalog

namespace Catalog

/-- A concrete state used to instantiate theorems: the bootstrap admin
(id 1), two regular users bob (id 2) and eve (id 3), and one product
owned by bob. -/
def demoState : AppState :=
  { users := [{ id := 1, username := "admin", email := "admin@example.com",
                password_hash := generate_password_hash "admin123",
                role := "admin" },
              { id := 2, username := "bob", email := "bob@x.com",
                password_hash := generate_password_hash "pw", role := "user" },
              { id := 3, username := "eve", email := "eve@x.com",
                password_hash := generate_password_hash "pw", role := "user" }],
    products := [{ id := 1, name := "Widget", description := "",
                   price := 5, product_image_url := "", created_by := 2,
                   created_at := 0, updated_at := 0 }],
    nextUserId := 4, nextProductId := 2 }

/-- **C1.** For an authenticated actor `u` and an existing product `p`,
update and delete are permitted iff `u.role == admin` or
`u.id == p.created_by`; in every other case both return 403 and the
state — in particular the product — is unchanged (guard at app.py:492
and app.py:539). -/
theorem modify_delete_authorization
    (s : AppState) (username : String) (pid : Nat) (data : UpdateRequest)
    (now : Nat) (u : User) (p : Product)
    (hu : findUserByUsername s username = some u)
    (hp : findProduct s pid = some p) :
    (((update_product s username pid data now).1 = .forbidden
        ∧ (delete_product s username pid).1 = .forbidden)
      ↔ ¬ (u.role = "admin" ∨ u.id = p.created_by))
    ∧ ((u.role = "admin" ∨ u.id = p.created_by) →
        (update_product s username pid data now).1 = .ok
          ∧ (delete_product s username pid).1 = .ok)
    ∧ (¬ (u.role = "admin" ∨ u.id = p.created_by) →
        (update_product s username pid data now).2 = s
          ∧ (delete_product s username pid).2 = s) := by
  by_cases hc : u.role = "admin" ∨ u.id = p.created_by
  · have hguard : ¬ (p.created_by ≠ u.id ∧ u.role ≠ "admin") := by
      rcases hc with h | h
      · exact fun hg => hg.2 h
      · exact fun hg => hg.1 h.symm
    by_cases hnc : noNetChange data p
    · simp [update_product, delete_product, hu, hp, hguard, hnc, hc]
    · simp [update_product, delete_product, hu, hp, hguard, hnc, hc]
  · have hguard : p.created_by ≠ u.id ∧ u.role ≠ "admin" := by
      constructor
      · exact fun h => hc (Or.inr h.symm)
      · exact fun h => hc (Or.inl h)
    simp [update_product, delete_product, hu, hp, hguard, hc]
    exact fun h => hguard.1 h.symm

/-- Witness for C1: eve (no admin role, not the owner) is refused on
bob's product. -/
theorem modify_delete_authorization_witness :
    (((update_product demoState "eve" 1 ⟨none, none, none, none⟩ 7).1
        = .forbidden
      ∧ (delete_product demoState "eve" 1).1 = .forbidden)
     ↔ ¬ (("user" : String) = "admin" ∨ (3 : Nat) = 2)) := by
  exact (modify_delete_authorization demoState "eve" 1 ⟨none, none, none, none⟩
    7 { id := 3, username := "eve", email := "eve@x.com",
        password_hash := generate_password_hash "pw", role := "user" }
    { id := 1, name := "Widget", description := "", price := 5,
      product_image_url := "", created_by := 2, created_at := 0,
      updated_at := 0 }
    (by decide) (by decide)).1

/-- **C8.** After an authorized delete of a product succeeds, a get by
that id returns `NotFound` (404): the deleted row is gone from the
table. -/
theorem delete_then_get_not_found
    (s : AppState) (username : String) (pid : Nat)
    (h : (delete_product s username pid).1 = .ok) :
    get_product (delete_product s username pid).2 pid = .notFound
    ∧ (get_product (delete_product s username pid).2 pid).status = 404 := by
  have hprod : (delete_product s username pid).2.products
      = s.products.filter (fun p => p.id ≠ pid) := by
    unfold delete_product at h ⊢
    cases hfp : findProduct s pid with
    | none => simp [hfp] at h
    | some p =>
      cases hfu : findUserByUsername s username with
      | none => simp [hfp, hfu] at h
      | some u =>
        by_cases hg : p.created_by ≠ u.id ∧ u.role ≠ "admin"
        · simp [hfp, hfu, hg] at h
        · simp [hfp, hfu, hg]
  have hnone : ∀ l : List Product,
      (l.filter (fun p => p.id ≠ pid)).find? (fun q => q.id = pid)
        = none := by
    intro l
    rw [List.find?_eq_none]
    intro x hx
    have hne := (List.mem_filter.mp hx).2
    simp_all
  have hget : get_product (delete_product s username pid).2 pid
      = .notFound := by
    have hfalse : List.find? (fun _ : Product => false) s.products = none := by
      rw [List.find?_eq_none]
      intro x hx
      simp
    simp [get_product, findProduct, hprod, hnone, hfalse]
  exact ⟨hget, by simp [hget, GetResult.status]⟩

/-- Witness for C8: admin deletes bob's product in the demo state. -/
theorem delete_then_get_not_found_witness :
    (delete_product demoState "admin" 1).1 = .ok
    ∧ get_product (delete_product demoState "admin" 1).2 1 = .notFound
    ∧ (get_product (delete_product demoState "admin" 1).2 1).status = 404 := by
  refine ⟨by decide, ?_⟩
  have h := delete_then_get_not_found demoState "admin" 1 (by decide)
  exact ⟨h.1, h.2⟩

end Catalog

namespace Catalog

/-- `find?` over the row-replacement map used by `update_product`:
replacing the row whose id matches yields that row on lookup. -/
theorem find?_map_replace
    (l : List Product) (pid : Nat) (p p' : Product)
    (hfind : l.find? (fun q => q.id = pid) = some p) (hid : p'.id = pid) :
    (l.map (fun q => if q.id = pid then p' else q)).find?
      (fun q => q.id = pid) = some p' := by
  induction l with
  | nil => simp at hfind
  | cons a l ih =>
    by_cases ha : a.id = pid
    · simp [ha, hid]
    · simp only [List.map_cons, if_neg ha]
      rw [List.find?_cons_of_neg, ih]
      · rw [List.find?_cons_of_neg] at hfind
        · exact hfind
        · simp [ha]
      · simp [ha]

/-- Characterization of the success branch of `update_product`
(app.py:495-501), shared by several theorems: result 200; the stored
row keeps `id`, `created_by`, `created_at` and takes each payload field
when present and the prior value otherwise; `updated_at` becomes the
commit time exactly when some value has a net change (otherwise the
flush skips the row entirely and the state is unchanged); all other
rows are untouched. -/
theorem update_ok_spec
    (s : AppState) (username : String) (pid : Nat) (data : UpdateRequest)
    (now : Nat) (u : User) (p : Product)
    (hu : findUserByUsername s username = some u)
    (hp : findProduct s pid = some p)
    (hauth : u.role = "admin" ∨ u.id = p.created_by) :
    (update_product s username pid data now).1 = .ok
    ∧ findProduct (update_product s username pid data now).2 pid =
        some { id := p.id,
               name := data.name.getD p.name,
               description := data.description.getD p.description,
               price := data.price.getD p.price,
               product_image_url :=
                 data.product_image_url.getD p.product_image_url,
               created_by := p.created_by,
               created_at := p.created_at,
               updated_at :=
                 if noNetChange data p then p.updated_at else now }
    ∧ (noNetChange data p → (update_product s username pid data now).2 = s)
    ∧ ∀ q ∈ s.products, q.id ≠ pid →
        q ∈ (update_product s username pid data now).2.products := by
  have hguard : ¬ (p.created_by ≠ u.id ∧ u.role ≠ "admin") := by
    rcases hauth with h | h
    · exact fun hg => hg.2 h
    · exact fun hg => hg.1 h.symm
  have hpid : p.id = pid := by
    have h0 : s.products.find? (fun q => q.id = pid) = some p := by
      simpa [findProduct] using hp
    simpa using List.find?_some h0
  by_cases hnc : noNetChange data p
  · have heq : update_product s username pid data now = (.ok, s) := by
      simp [update_product, hp, hu, hguard, hnc]
    have hrec : ({ id := p.id,
                   name := data.name.getD p.name,
                   description := data.description.getD p.description,
                   price := data.price.getD p.price,
                   product_image_url :=
                     data.product_image_url.getD p.product_image_url,
                   created_by := p.created_by, created_at := p.created_at,
                   updated_at :=
                     if noNetChange data p then p.updated_at
                     else now } : Product)
        = p := by
      have hnc' := hnc
      obtain ⟨h1, h2, h3, h4⟩ := hnc'
      rw [if_pos hnc, h1, h2, h3, h4]
    refine ⟨by rw [heq], ?_, fun _ => by rw [heq],
            fun q hq hne => by rw [heq]; exact hq⟩
    rw [heq, hrec]
    exact hp
  · have heq : update_product s username pid data now =
        (.ok,
         { s with products := s.products.map (fun q =>
            if q.id = pid then
              { id := p.id,
                name := data.name.getD p.name,
                description := data.description.getD p.description,
                price := data.price.getD p.price,
                product_image_url :=
                  data.product_image_url.getD p.product_image_url,
                created_by := p.created_by,
                created_at := p.created_at,
                updated_at := now }
            else q) }) := by
      simp [update_product, hp, hu, hguard, hnc]
    refine ⟨by rw [heq], ?_, fun hh => absurd hh hnc, ?_⟩
    · rw [heq]
      simp only [findProduct]
      rw [if_neg hnc]
      exact find?_map_replace s.products pid p _
        (by simpa [findProduct] using hp) hpid
    · intro q hq hne
      rw [heq]
      exact List.mem_map.mpr ⟨q, hq, by simp [hne]⟩

/-- **C5 counterexample.** The claim — `updated_at` is refreshed on
every successful update — is false: an authorized update by bob of his
own product with an empty payload returns 200 but no field has a net
change, so the flush emits no UPDATE, `onupdate` never fires, and the
stored row still carries `updated_at = 0`, not the commit time 9. -/
theorem update_refresh_claim_refuted :
    ¬ (∀ (s : AppState) (username : String) (pid : Nat)
        (data : UpdateRequest) (now : Nat),
        (update_product s username pid data now).1 = .ok →
        ∀ q ∈ (update_product s username pid data now).2.products,
          q.id = pid → q.updated_at = now) := by
  intro h
  exact absurd
    (h demoState "bob" 1 ⟨none, none, none, none⟩ 9 (by decide)
      { id := 1, name := "Widget", description := "", price := 5,
        product_image_url := "", created_by := 2, created_at := 0,
        updated_at := 0 }
      (by decide) (by decide))
    (by decide)

/-- **C5 (amended).** An authorized update of an existing product
returns 200 and changes exactly the fields present in the payload:
omitted fields keep their prior value, `id`, `created_by` and
`created_at` are never changed, and all other products are untouched;
`updated_at` is refreshed to the commit time when some stored value has
a net change, but an update producing no net change (for example an
empty payload) returns 200 with the row — `updated_at` included —
unchanged, because no UPDATE is emitted and `onupdate` does not
fire. -/
theorem update_partial_semantics
    (s : AppState) (username : String) (pid : Nat) (data : UpdateRequest)
    (now : Nat) (u : User) (p : Product)
    (hu : findUserByUsername s username = some u)
    (hp : findProduct s pid = some p)
    (hauth : u.role = "admin" ∨ u.id = p.created_by) :
    (update_product s username pid data now).1 = .ok
    ∧ findProduct (update_product s username pid data now).2 pid =
        some { id := p.id,
               name := data.name.getD p.name,
               description := data.description.getD p.description,
               price := data.price.getD p.price,
               product_image_url :=
                 data.product_image_url.getD p.product_image_url,
               created_by := p.created_by,
               created_at := p.created_at,
               updated_at :=
                 if noNetChange data p then p.updated_at else now }
    ∧ (noNetChange data p → (update_product s username pid data now).2 = s)
    ∧ ∀ q ∈ s.products, q.id ≠ pid →
        q ∈ (update_product s username pid data now).2.products :=
  update_ok_spec s username pid data now u p hu hp hauth

/-- Witness for the amended C5: bob updates only the price of his
product (a net change: `updated_at` becomes 9, other fields survive),
and an empty-payload update returns 200 leaving the state unchanged. -/
theorem update_partial_semantics_witness :
    ((update_product demoState "bob" 1 ⟨none, none, some 7, none⟩ 9).1 = .ok
      ∧ findProduct
          (update_product demoState "bob" 1 ⟨none, none, some 7, none⟩ 9).2 1
        = some { id := 1, name := "Widget", description := "", price := 7,
                 product_image_url := "", created_by := 2, created_at := 0,
                 updated_at := 9 })
    ∧ ((update_product demoState "bob" 1 ⟨none, none, none, none⟩ 9).1 = .ok
      ∧ (update_product demoState "bob" 1 ⟨none, none, none, none⟩ 9).2
          = demoState) := by
  have h1 := update_partial_semantics demoState "bob" 1
    ⟨none, none, some 7, none⟩ 9
    { id := 2, username := "bob", email := "bob@x.com",
      password_hash := generate_password_hash "pw", role := "user" }
    { id := 1, name := "Widget", description := "", price := 5,
      product_image_url := "", created_by := 2, created_at := 0,
      updated_at := 0 }
    (by decide) (by decide) (Or.inr rfl)
  have h2 := update_partial_semantics demoState "bob" 1
    ⟨none, none, none, none⟩ 9
    { id := 2, username := "bob", email := "bob@x.com",
      password_hash := generate_password_hash "pw", role := "user" }
    { id := 1, name := "Widget", description := "", price := 5,
      product_image_url := "", created_by := 2, created_at := 0,
      updated_at := 0 }
    (by decide) (by decide) (Or.inr rfl)
  refine ⟨⟨h1.1, ?_⟩, h2.1, h2.2.2.1 (by decide)⟩
  simpa using h1.2.1

end Catalog

namespace Catalog

/-- **C6 counterexample.** The claim — GET /api/products and
GET /api/products/{id} of an existing product return 200 whether the
request carries a valid token, no token, or an invalid/expired token —
is false: with an expired token at the demo state (product 1 exists),
the optional-auth decorator rejects the request with 401. -/
theorem optional_auth_any_token_refuted :
    ¬ (∀ (auth : AuthHeader) (s : AppState) (pid : Nat) (p : Product),
        findProduct s pid = some p →
        get_product_endpoint_status auth s pid = 200
        ∧ get_products_endpoint_status auth none s = 200) := by
  intro h
  exact absurd
    (h .expiredTok demoState 1
      { id := 1, name := "Widget", description := "", price := 5,
        product_image_url := "", created_by := 2, created_at := 0,
        updated_at := 0 }
      (by decide)).1
    (by decide)

/-- **C6 (amended).** On the optional-auth read endpoints a request with
no token or a valid token succeeds (200) when the product exists, but a
request carrying an invalid or expired token is rejected by
`jwt_required(optional=True)` — 401 for an expired token, 422 for an
unverifiable one — instead of being treated as anonymous. -/
theorem optional_auth_reads
    (auth : AuthHeader) (s : AppState) (pid : Nat) (p : Product)
    (hp : findProduct s pid = some p) :
    ((auth = .missing ∨ ∃ who, auth = .valid who) →
      get_product_endpoint_status auth s pid = 200
      ∧ get_products_endpoint_status auth none s = 200)
    ∧ get_product_endpoint_status .expiredTok s pid = 401
    ∧ get_product_endpoint_status .invalidTok s pid = 422
    ∧ get_products_endpoint_status .expiredTok none s = 401
    ∧ get_products_endpoint_status .invalidTok none s = 422 := by
  refine ⟨?_, rfl, rfl, rfl, rfl⟩
  rintro (rfl | ⟨who, rfl⟩) <;>
    simp [get_product_endpoint_status, get_products_endpoint_status,
      verify_jwt_optional, get_product, get_products, hp, GetResult.status]

/-- Witness for the amended C6: anonymous and valid-token reads of the
demo product succeed; expired/invalid tokens are rejected. -/
theorem optional_auth_reads_witness :
    (get_product_endpoint_status .missing demoState 1 = 200
      ∧ get_products_endpoint_status .missing none demoState = 200)
    ∧ get_product_endpoint_status .expiredTok demoState 1 = 401
    ∧ get_product_endpoint_status .invalidTok demoState 1 = 422
    ∧ get_products_endpoint_status .expiredTok none demoState = 401
    ∧ get_products_endpoint_status .invalidTok none demoState = 422 := by
  have h := optional_auth_reads .missing demoState 1
    { id := 1, name := "Widget", description := "", price := 5,
      product_image_url := "", created_by := 2, created_at := 0,
      updated_at := 0 }
    (by decide)
  exact ⟨h.1 (Or.inl rfl), h.2⟩

/-- **C9 counterexample.** The claim — the error response of the
product-list operation does not depend on the content of the internal
exception — is false: two different exception texts produce two
different response bodies at the bootstrap state. -/
theorem error_response_fixed_text_refuted :
    ¬ (∀ (e1 e2 : String) (s : AppState),
        get_products (some e1) s = get_products (some e2) s) := by
  intro h
  exact absurd (h "UnboundLocalError" "OperationalError" initState)
    (by decide)

/-- **C9 (amended).** The failure response of the product-list handler
is not drawn from fixed text: it embeds the internal exception's text
verbatim — the body is `{"error": str(e)}` (app.py:332) — so responses
for distinct exception texts differ. -/
theorem get_products_error_leaks
    (e1 e2 : String) (s1 s2 : AppState) (hne : e1 ≠ e2) :
    get_products (some e1) s1 = (500, .errorBody e1)
    ∧ get_products (some e1) s1 ≠ get_products (some e2) s2 := by
  refine ⟨rfl, ?_⟩
  simp only [get_products, ne_eq, Prod.mk.injEq]
  intro hcontra
  exact hne (by injection hcontra.2)

/-- Witness for the amended C9 at two concrete exception texts. -/
theorem get_products_error_leaks_witness :
    get_products (some "UnboundLocalError") initState =
      (500, .errorBody "UnboundLocalError")
    ∧ get_products (some "UnboundLocalError") initState ≠
      get_products (some "OperationalError") initState := by
  exact get_products_error_leaks "UnboundLocalError" "OperationalError"
    initState initState (by decide)

end Catalog

namespace Catalog

/-- **C7 counterexample.** The claim — every product in every reachable
state has a non-negative price — is false: from the bootstrap state,
the admin creates a product with price −5 (neither `create_product` nor
`update_product` checks the sign, app.py:431 and app.py:497), reaching
a state whose single product has a negative price. -/
theorem price_nonneg_invariant_refuted :
    ¬ (∀ s : AppState, Reachable s → ∀ p ∈ s.products, 0 ≤ p.price) := by
  intro h
  have hr : Reachable
      (create_product initState "admin"
        ⟨some "Gizmo", none, some (-5), none⟩ 0).2 :=
    Reachable.step Reachable.init
      (Step.create initState "admin" ⟨some "Gizmo", none, some (-5), none⟩ 0)
  have hmem : ({ id := 1, name := "Gizmo", description := "",
                 price := (-5 : Int), product_image_url := "",
                 created_by := 1, created_at := 0,
                 updated_at := 0 } : Product) ∈
      (create_product initState "admin"
        ⟨some "Gizmo", none, some (-5), none⟩ 0).2.products := by
    decide
  exact absurd (h _ hr _ hmem) (by decide)

/-- **C7 (amended).** Neither creation nor update validates the price:
the stored price is exactly the caller-supplied value, so a negative
supplied price is stored. -/
theorem price_stored_unchecked
    (s : AppState) (username : String) (now : Nat) (v : Int) :
    (∀ (dataC : CreateRequest) (n : String) (u : User),
      dataC.name = some n → dataC.price = some v →
      findUserByUsername s username = some u →
      ∃ newp : Product,
        (create_product s username dataC now).1 = .created newp.id
        ∧ (create_product s username dataC now).2.products
            = s.products ++ [newp]
        ∧ newp.price = v)
    ∧ (∀ (dataU : UpdateRequest) (pid : Nat) (u : User) (p : Product),
      dataU.price = some v →
      findUserByUsername s username = some u →
      findProduct s pid = some p →
      (u.role = "admin" ∨ u.id = p.created_by) →
      ∃ q : Product,
        findProduct (update_product s username pid dataU now).2 pid = some q
        ∧ q.price = v) := by
  constructor
  · intro dataC n u hn hv hu
    refine ⟨{ id := s.nextProductId, name := n,
              description := dataC.description.getD "",
              price := v,
              product_image_url := dataC.product_image_url.getD "",
              created_by := u.id, created_at := now, updated_at := now },
            ?_, ?_, rfl⟩
    · simp [create_product, hn, hv, hu]
    · simp [create_product, hn, hv, hu]
  · intro dataU pid u p hv hu hp hauth
    refine ⟨_, (update_ok_spec s username pid dataU now u p hu hp hauth).2.1,
            ?_⟩
    simp [hv]

/-- Witness for the amended C7: admin creates a product priced −5 at
the bootstrap state, and an update of the demo product to price −3 is
stored as −3. -/
theorem price_stored_unchecked_witness :
    (∃ newp : Product,
      (create_product initState "admin"
        ⟨some "Gizmo", none, some (-5), none⟩ 0).1 = .created newp.id
      ∧ (create_product initState "admin"
          ⟨some "Gizmo", none, some (-5), none⟩ 0).2.products
          = initState.products ++ [newp]
      ∧ newp.price = -5)
    ∧ (∃ q : Product,
      findProduct (update_product demoState "bob" 1
        ⟨none, none, some (-3), none⟩ 4).2 1 = some q
      ∧ q.price = -3) := by
  constructor
  · exact (price_stored_unchecked initState "admin" 0 (-5)).1
      ⟨some "Gizmo", none, some (-5), none⟩ "Gizmo"
      { id := 1, username := "admin", email := "admin@example.com",
        password_hash := generate_password_hash "admin123",
        role := "admin" }
      rfl rfl (by decide)
  · exact (price_stored_unchecked demoState "bob" 4 (-3)).2
      ⟨none, none, some (-3), none⟩ 1
      { id := 2, username := "bob", email := "bob@x.com",
        password_hash := generate_password_hash "pw", role := "user" }
      { id := 1, name := "Widget", description := "", price := 5,
        product_image_url := "", created_by := 2, created_at := 0,
        updated_at := 0 }
      rfl (by decide) (by decide) (Or.inr rfl)

end Catalog

namespace Catalog

/-- `create_product` never touches the user table. -/
theorem create_product_users_eq (s : AppState) (username : String)
    (data : CreateRequest) (now : Nat) :
    (create_product s username data now).2.users = s.users := by
  unfold create_product
  cases hn : data.name with
  | none => rfl
  | some n =>
    cases hv : data.price with
    | none => rfl
    | some v =>
      cases hu : findUserByUsername s username with
      | none => rfl
      | some u => rfl

/-- `update_product` never touches the user table. -/
theorem update_product_users_eq (s : AppState) (username : String)
    (pid : Nat) (data : UpdateRequest) (now : Nat) :
    (update_product s username pid data now).2.users = s.users := by
  unfold update_product
  cases hp : findProduct s pid with
  | none => rfl
  | some p =>
    cases hu : findUserByUsername s username with
    | none => rfl
    | some u =>
      by_cases hg : p.created_by ≠ u.id ∧ u.role ≠ "admin"
      · simp [hg]
      · by_cases hnc : noNetChange data p
        · simp [hg, hnc]
        · simp [hg, hnc]

/-- `delete_product` never touches the user table. -/
theorem delete_product_users_eq (s : AppState) (username : String)
    (pid : Nat) :
    (delete_product s username pid).2.users = s.users := by
  unfold delete_product
  cases hp : findProduct s pid with
  | none => rfl
  | some p =>
    cases hu : findUserByUsername s username with
    | none => rfl
    | some u =>
      by_cases hg : p.created_by ≠ u.id ∧ u.role ≠ "admin"
      · simp [hg]
      · simp [hg]

/-- `register` either leaves the state unchanged or appends a single
user whose username and email were absent from the table. -/
theorem register_users_cases (s : AppState) (req : RegisterRequest) :
    (register s req).2 = s ∨
    ∃ u : User,
      findUserByUsername s u.username = none
      ∧ findUserByEmail s u.email = none
      ∧ (register s req).2.users = s.users ++ [u] := by
  unfold register
  cases h1 : fieldMissing req.username with
  | true => exact Or.inl rfl
  | false =>
    cases h2 : fieldMissing req.email with
    | true => exact Or.inl rfl
    | false =>
      cases h3 : fieldMissing req.password with
      | true => exact Or.inl rfl
      | false =>
        cases hdu : findUserByUsername s (req.username.getD "") with
        | some u => exact Or.inl (by simp [hdu])
        | none =>
          cases hde : findUserByEmail s (req.email.getD "") with
          | some u => exact Or.inl (by simp [hdu, hde])
          | none =>
            refine Or.inr ⟨{ id := s.nextUserId,
                             username := req.username.getD "",
                             email := req.email.getD "",
                             password_hash :=
                               generate_password_hash (req.password.getD ""),
                             role := (ROLES.get
                               (req.role.getD "user")).getD "user" },
                           hdu, hde, ?_⟩
            simp [hdu, hde]

/-- A successful registration appends a fresh username and email, so it
preserves pairwise credential uniqueness. -/
theorem register_preserves_unique (s : AppState) (req : RegisterRequest)
    (h : UniqueCreds s) : UniqueCreds (register s req).2 := by
  rcases register_users_cases s req with heq | ⟨u, hdu, hde, heq⟩
  · rwa [heq]
  · unfold UniqueCreds at h ⊢
    rw [heq, List.pairwise_append]
    refine ⟨h, List.pairwise_singleton _ _, ?_⟩
    intro a ha b hb
    have hb' : b = u := by simpa using hb
    rw [hb']
    constructor
    · intro hcontra
      have hnone := List.find?_eq_none.mp
        (show s.users.find? (fun x => x.username = u.username) = none by
          simpa [findUserByUsername] using hdu) a ha
      simp [hcontra] at hnone
    · intro hcontra
      have hnone := List.find?_eq_none.mp
        (show s.users.find? (fun x => x.email = u.email) = none by
          simpa [findUserByEmail] using hde) a ha
      simp [hcontra] at hnone

/-- Credential uniqueness holds in the bootstrap state and is preserved
by every handler, hence in every reachable state. -/
theorem reachable_unique_creds (s : AppState) (h : Reachable s) :
    UniqueCreds s := by
  induction h with
  | init => simp [UniqueCreds, initState]
  | step hreach hstep ih =>
    cases hstep with
    | register req => exact register_preserves_unique _ req ih
    | create username data now =>
      unfold UniqueCreds at ih ⊢
      rw [create_product_users_eq]
      exact ih
    | update username pid data now =>
      unfold UniqueCreds at ih ⊢
      rw [update_product_users_eq]
      exact ih
    | delete username pid =>
      unfold UniqueCreds at ih ⊢
      rw [delete_product_users_eq]
      exact ih

end Catalog

namespace Catalog

/-- **C3.** Username and email are unique across users in every
reachable state, and a well-formed registration whose username or email
already exists fails with a duplicate error (400) — regardless of the
other field — leaving the user store unchanged (checks at
app.py:202-206, unique columns at app.py:94-95). -/
theorem unique_credentials :
    (∀ s : AppState, Reachable s → UniqueCreds s)
    ∧ (∀ (s : AppState) (req : RegisterRequest),
        fieldMissing req.username = false →
        fieldMissing req.email = false →
        fieldMissing req.password = false →
        (∃ u ∈ s.users, u.username = req.username.getD ""
            ∨ u.email = req.email.getD "") →
        ((register s req).1 = .usernameExists
          ∨ (register s req).1 = .emailExists)
        ∧ (register s req).1.status = 400
        ∧ (register s req).2 = s) := by
  refine ⟨reachable_unique_creds, ?_⟩
  intro s req h1 h2 h3 hdup
  obtain ⟨u, hu, hcase⟩ := hdup
  cases hdu : findUserByUsername s (req.username.getD "") with
  | some w =>
    refine ⟨Or.inl ?_, ?_, ?_⟩ <;>
      simp [register, h1, h2, h3, hdu, RegisterResult.status]
  | none =>
    have hne : ¬ u.username = req.username.getD "" := by
      intro hcontra
      have hnone := List.find?_eq_none.mp
        (show s.users.find? (fun x => x.username = req.username.getD "")
            = none by simpa [findUserByUsername] using hdu) u hu
      simp [hcontra] at hnone
    have hemail : u.email = req.email.getD "" := hcase.resolve_left hne
    cases hde : findUserByEmail s (req.email.getD "") with
    | none =>
      exfalso
      have hnone := List.find?_eq_none.mp
        (show s.users.find? (fun x => x.email = req.email.getD "")
            = none by simpa [findUserByEmail] using hde) u hu
      simp [hemail] at hnone
    | some w =>
      refine ⟨Or.inr ?_, ?_, ?_⟩ <;>
        simp [register, h1, h2, h3, hdu, hde, RegisterResult.status]

/-- Witness for C3: uniqueness at the bootstrap state, and registering
a second "bob" with a fresh email is rejected with 400 and no state
change. -/
theorem unique_credentials_witness :
    UniqueCreds initState
    ∧ (((register demoState
          ⟨some "bob", some "fresh@x.com", some "pw", none⟩).1
            = .usernameExists
        ∨ (register demoState
            ⟨some "bob", some "fresh@x.com", some "pw", none⟩).1
            = .emailExists)
      ∧ (register demoState
          ⟨some "bob", some "fresh@x.com", some "pw", none⟩).1.status = 400
      ∧ (register demoState
          ⟨some "bob", some "fresh@x.com", some "pw", none⟩).2
          = demoState) := by
  refine ⟨unique_credentials.1 initState Reachable.init,
    unique_credentials.2 demoState
      ⟨some "bob", some "fresh@x.com", some "pw", none⟩
      (by decide) (by decide) (by decide) ?_⟩
  exact ⟨{ id := 2, username := "bob", email := "bob@x.com",
           password_hash := generate_password_hash "pw", role := "user" },
         by decide, Or.inl rfl⟩

end Catalog
